import Mathlib

/-!
Shallow embedding of `src/backend/server.py` (FastAPI backend: Google OAuth
login, JWT session tokens, user-profile CRUD over a document store, and a
status-check log).  Time is modelled as seconds since the epoch (`Nat`); the
MongoDB `users` and `status_checks` collections are modelled as Lean lists in
insertion order, matching MongoDB natural order for this append/in-place-update
workload.  The HMAC-SHA256 primitive used by the PyJWT library is an external
dependency, modelled as a concrete deterministic keyed hash (`hmacSign`);
no proof below relies on collision resistance, only on determinism.
-/

namespace Backend

/-- JWT claim set produced by `create_access_token` and consumed by
`verify_token`: `{sub, email, name}` plus an optional `exp` (a JWT in general
need not carry an expiry; PyJWT only checks `exp` when present). -/
structure Claims where
  sub : String
  email : String
  name : String
  exp : Option Nat
deriving DecidableEq, Repr

/-- Deterministic string hash used to model the keyed MAC. -/
def strHash (s : String) : Nat :=
  s.foldl (fun h c => h * 131 + c.toNat + 1) 7

/-- Serialisation of a claim set used by the MAC model. -/
def encodeClaims (c : Claims) : String :=
  c.sub ++ "|" ++ c.email ++ "|" ++ c.name ++ "|" ++
    (match c.exp with
     | none => "-"
     | some e => toString e)

/-- Model of HMAC-SHA256 with key `secret` (the `HS256` algorithm of
`jwt.encode`/`jwt.decode`): a deterministic function of payload and secret. -/
def hmacSign (c : Claims) (secret : String) : Nat :=
  strHash (secret ++ "#" ++ encodeClaims c ++ "#" ++ secret)

/-- A token string on the wire: either not a structurally valid JWT at all,
or a payload together with a (possibly wrong) signature. -/
inductive RawToken
  | malformed (s : String)
  | signed (payload : Claims) (sig : Nat)
deriving DecidableEq, Repr

/-- `create_access_token` (server.py lines 71-76): copies the claim data,
adds `exp = utcnow() + 24h` (86400 s), and signs with the process secret via
HS256.  A Lean `def`, hence literally a pure function of the input claims,
the current time and the secret. -/
def create_access_token (sub email name : String) (secret : String)
    (now : Nat) : RawToken :=
  let payload : Claims := { sub := sub, email := email, name := name,
                            exp := some (now + 86400) }
  .signed payload (hmacSign payload secret)

/-- An HTTP error response (`HTTPException`): status code plus detail. -/
structure HTTPError where
  statusCode : Nat
  detail : String
deriving DecidableEq, Repr

/-- `verify_token` (server.py lines 78-85): `jwt.decode` checks the signature
(failure → `DecodeError`/`InvalidTokenError`, mapped to 401 "Invalid token"),
then, only when an `exp` claim is present, checks expiry with zero leeway
(`exp <= now` → `ExpiredSignatureError`, mapped to 401 "Token expired"). -/
def verify_token (tok : RawToken) (secret : String) (now : Nat) :
    Except HTTPError Claims :=
  match tok with
  | .malformed _ => .error ⟨401, "Invalid token"⟩
  | .signed c s =>
    if s = hmacSign c secret then
      match c.exp with
      | some e => if e ≤ now then .error ⟨401, "Token expired"⟩ else .ok c
      | none => .ok c
    else .error ⟨401, "Invalid token"⟩

/-- A document of the `users` collection (the `UserProfile` model,
server.py lines 46-55).  Every document written by this backend has exactly
these fields. -/
structure UserDoc where
  id : String
  google_id : String
  email : String
  name : String
  picture : String
  about_me : String
  age : Option Int
  created_at : Nat
  last_login : Nat
deriving DecidableEq, Repr

/-- `db.users.find_one({"google_id": gid})`: first document (in natural
order) whose `google_id` matches. -/
def find_one (db : List UserDoc) (gid : String) : Option UserDoc :=
  db.find? (fun u => u.google_id = gid)

/-- The `Authorization` header value, as classified by `get_current_user`:
either a value that is empty or does not start with `"Bearer "`, or
`"Bearer "` followed by (the wire form of) a token. -/
inductive AuthHeaderVal
  | nonBearer (s : String)
  | bearer (t : RawToken)
deriving DecidableEq, Repr

/-- `get_current_user` (server.py lines 87-100): 401 when the header is
missing, empty or not `Bearer `; otherwise verify the token (401 on failure),
then resolve the token subject against the `users` collection
(404 when absent). -/
def get_current_user (db : List UserDoc) (secret : String) (now : Nat)
    (authHeader : Option AuthHeaderVal) : Except HTTPError UserDoc :=
  match authHeader with
  | none => .error ⟨401, "Missing or invalid authorization header"⟩
  | some (.nonBearer _) => .error ⟨401, "Missing or invalid authorization header"⟩
  | some (.bearer tok) =>
    match verify_token tok secret now with
    | .error e => .error e
    | .ok payload =>
      match find_one db payload.sub with
      | none => .error ⟨404, "User not found"⟩
      | some u => .ok u

/-- `GET /auth/me` (server.py lines 154-156): returns the resolved current
user, with errors exactly those of `get_current_user`. -/
def get_current_user_profile (db : List UserDoc) (secret : String) (now : Nat)
    (authHeader : Option AuthHeaderVal) : Except HTTPError UserDoc :=
  get_current_user db secret now authHeader

/-- MongoDB `update_one(filter, {"$set": ...})` core: apply `f` to the first
document matching `gid`, leave the rest untouched; the boolean reports
whether a match was found. -/
def updateFirst (db : List UserDoc) (gid : String) (f : UserDoc → UserDoc) :
    List UserDoc × Bool :=
  match db with
  | [] => ([], false)
  | u :: rest =>
    if u.google_id = gid then (f u :: rest, true)
    else
      let r := updateFirst rest gid f
      (u :: r.1, r.2)

/-- `update_one({"google_id": gid}, {"$set": doc}, upsert=True)` where the
`$set` document supplies every field (as in `google_auth`): replace the first
matching document with `doc`, or insert `doc` when no document matches (the
inserted document is the filter merged with the `$set` fields, which here is
exactly `doc` since `doc.google_id = gid` at every call site). -/
def update_one_upsert (db : List UserDoc) (gid : String) (doc : UserDoc) :
    List UserDoc :=
  let r := updateFirst db gid (fun _ => doc)
  if r.2 then r.1 else db ++ [doc]

/-- `update_one({"google_id": gid}, {"$set": partial})` without upsert (as in
`update_user_profile`): apply the partial `$set` to the first matching
document; no-op when no document matches. -/
def update_one_set (db : List UserDoc) (gid : String) (f : UserDoc → UserDoc) :
    List UserDoc :=
  (updateFirst db gid f).1

/-- Profile claims returned by the provider inside
`token.get("userinfo")`: `sub`, `email`, `name` are accessed with `[]`
(present on every successful path), `picture` with `.get` (may be absent). -/
structure UserInfo where
  sub : String
  email : String
  name : String
  picture : Option String
deriving DecidableEq, Repr

/-- Outcome of `oauth.google.authorize_access_token(request)` as seen by the
callback handler: either the call raised (provider error, state mismatch,
network failure, ... — any exception, carrying its message) or it returned a
token whose `userinfo` entry may be present or absent. -/
inductive OAuthOutcome
  | failure (msg : String)
  | success (userinfo : Option UserInfo)
deriving DecidableEq, Repr

/-- Response of the OAuth callback endpoint: always an HTTP redirect, either
to `FRONTEND_URL/auth/callback?token=...` or to
`FRONTEND_URL/auth/error?message=...`. -/
inductive AuthResponse
  | redirectCallback (token : RawToken)
  | redirectError (msg : String)
deriving DecidableEq, Repr

/-- `str(e)` for the `HTTPException(400, "Failed to get user info from
Google")` raised when `userinfo` is absent and caught by the handler's own
`except` block. -/
def userinfoErrMsg : String := "400: Failed to get user info from Google"

/-- The `user_data` dict built by `google_auth` (server.py lines 120-130):
a freshly generated id, the provider claims, `picture` defaulted to `""`,
`about_me` reset to `""`, `age` reset to `None`, and both timestamps set to
the current time. -/
def mkLoginDoc (ui : UserInfo) (newId : String) (now : Nat) : UserDoc :=
  { id := newId
    google_id := ui.sub
    email := ui.email
    name := ui.name
    picture := ui.picture.getD ""
    about_me := ""
    age := none
    created_at := now
    last_login := now }

/-- `GET /auth/google` (server.py lines 110-152): the whole handler body is
wrapped in `try/except Exception`.  On success: upsert `user_data` keyed by
the provider subject id, issue a session token, redirect to the front-end
callback URL with the token.  On any failure (provider exception, or the
handler's own `HTTPException` for missing `userinfo`): redirect to the
front-end error URL with the message.  `newId` is the freshly generated
`uuid4` and `now` the current time, passed as inputs. -/
def google_auth (db : List UserDoc) (secret : String) (now : Nat)
    (newId : String) (outcome : OAuthOutcome) : List UserDoc × AuthResponse :=
  match outcome with
  | .failure m => (db, .redirectError m)
  | .success none => (db, .redirectError userinfoErrMsg)
  | .success (some ui) =>
    let user_data := mkLoginDoc ui newId now
    let db' := update_one_upsert db ui.sub user_data
    let tok := create_access_token ui.sub ui.email ui.name secret now
    (db', .redirectCallback tok)

/-- The validated `UserProfileUpdate` body (server.py lines 57-60) after
`dict(exclude_unset=True)`: each field is `none` when absent from the
request.  For `age` the inner option is the JSON `null` that the field can
legitimately carry (`Optional[int]`). -/
structure UserProfileUpdate where
  name : Option String := none
  about_me : Option String := none
  age : Option (Option Int) := none
deriving DecidableEq, Repr

/-- The `$set` of `update_user_profile`: overwrite exactly the fields present
in `update_data`. -/
def applyProfileSet (upd : UserProfileUpdate) (u : UserDoc) : UserDoc :=
  { u with
    name := upd.name.getD u.name
    about_me := upd.about_me.getD u.about_me
    age := match upd.age with
           | some a => a
           | none => u.age }

/-- `if update_data:` — the dict is falsy exactly when no field was set. -/
def isEmptyUpdate (upd : UserProfileUpdate) : Bool :=
  upd.name.isNone && upd.about_me.isNone && upd.age.isNone

/-- `PUT /auth/profile` handler (server.py lines 158-174), after body
validation: resolve the current user (propagating its 401/404); when the
update dict is empty return the current user unchanged; otherwise `$set` the
supplied fields on the matching document and return the re-fetched document.
The re-fetch cannot miss (the current user was just found), so the 500 branch
models the `UserProfile(**None)` crash that would occur if it did. -/
def update_user_profile (db : List UserDoc) (secret : String) (now : Nat)
    (authHeader : Option AuthHeaderVal) (upd : UserProfileUpdate) :
    List UserDoc × Except HTTPError UserDoc :=
  match get_current_user db secret now authHeader with
  | .error e => (db, .error e)
  | .ok current_user =>
    if isEmptyUpdate upd then (db, .ok current_user)
    else
      let db' := update_one_set db current_user.google_id (applyProfileSet upd)
      match find_one db' current_user.google_id with
      | some u => (db', .ok u)
      | none => (db', .error ⟨500, "Internal Server Error"⟩)

/-- A JSON scalar as it can appear for a `UserProfileUpdate` field in the
request body. -/
inductive JsonVal
  | jnull
  | jint (n : Int)
  | jstr (s : String)
deriving DecidableEq, Repr

/-- The raw JSON request body of `PUT /auth/profile`: each field is absent or
carries a JSON value. -/
structure RawBody where
  name : Option JsonVal := none
  about_me : Option JsonVal := none
  age : Option JsonVal := none
deriving DecidableEq, Repr

/-- Pydantic (v1) coercion into `Optional[str]`: strings pass through, ints
are coerced to their decimal string, `null` yields `None`.  An explicit
`null` for a string field is modelled as the field being absent: the code
would instead store a JSON null, a state no claim distinguishes from the
field being left alone. -/
def coerceOptStr (v : JsonVal) : Option String :=
  match v with
  | .jnull => none
  | .jint n => some (toString n)
  | .jstr s => some s

/-- Digit run to number, as `int(...)` reads a decimal string. -/
def digitsToNat (l : List Char) : Nat :=
  l.foldl (fun n c => n * 10 + (c.toNat - 48)) 0

/-- Model of Python `int(str)` as pydantic uses it to coerce a string into
an `int` field: an optional leading minus sign followed by a non-empty run
of decimal digits; anything else fails. -/
def pyIntOfString (s : String) : Option Int :=
  match s.data with
  | [] => none
  | '-' :: rest =>
    if rest ≠ [] ∧ rest.all (fun c => c.isDigit) then
      some (-(digitsToNat rest : Int))
    else none
  | l =>
    if l.all (fun c => c.isDigit) then some ((digitsToNat l : Nat) : Int)
    else none

/-- Pydantic (v1) coercion into `Optional[int]`: ints pass through, `null`
yields `None`, strings are parsed with `int(...)` and rejected when they do
not parse. -/
def coerceOptInt (v : JsonVal) : Except HTTPError (Option Int) :=
  match v with
  | .jnull => .ok none
  | .jint n => .ok (some n)
  | .jstr s =>
    match pyIntOfString s with
    | some n => .ok (some n)
    | none => .error ⟨422, "validation error"⟩

/-- FastAPI body validation of `UserProfileUpdate`: a field whose value fails
its type (e.g. `age` a non-numeric string) makes the whole request fail with
HTTP 422 before the handler runs. -/
def validateBody (b : RawBody) : Except HTTPError UserProfileUpdate :=
  match b.age with
  | none =>
    .ok { name := b.name.bind coerceOptStr
          about_me := b.about_me.bind coerceOptStr }
  | some v =>
    match coerceOptInt v with
    | .error e => .error e
    | .ok a =>
      .ok { name := b.name.bind coerceOptStr
            about_me := b.about_me.bind coerceOptStr
            age := some a }

/-- The full `PUT /auth/profile` request path: FastAPI solves the
`get_current_user` dependency first (an auth failure propagates as its
401/404 before validation errors are raised), then validates the body
(failure → 422, handler never runs, store untouched), then runs the
handler. -/
def put_profile_endpoint (db : List UserDoc) (secret : String) (now : Nat)
    (authHeader : Option AuthHeaderVal) (raw : RawBody) :
    List UserDoc × Except HTTPError UserDoc :=
  match get_current_user db secret now authHeader with
  | .error e => (db, .error e)
  | .ok _ =>
    match validateBody raw with
    | .error e => (db, .error e)
    | .ok upd => update_user_profile db secret now authHeader upd

/-- A document of the `status_checks` collection (the `StatusCheck` model,
server.py lines 62-65). -/
structure StatusCheck where
  id : String
  client_name : String
  timestamp : Nat
deriving DecidableEq, Repr

/-- `GET /status` (server.py lines 192-195):
`db.status_checks.find().to_list(1000)` — an unsorted query returns the
collection in natural (insertion) order and `to_list(1000)` takes the first
1000 documents of that order. -/
def get_status_checks (col : List StatusCheck) : List StatusCheck :=
  col.take 1000

/-- Number of documents of the `users` collection matching a provider
subject id. -/
def countGid (db : List UserDoc) (g : String) : Nat :=
  db.countP (fun u => u.google_id = g)

/-- The projection of a user document onto the fields `PUT /auth/profile`
must not touch. -/
def frameProj (u : UserDoc) : String × String × String × String × Nat × Nat :=
  (u.id, u.google_id, u.email, u.picture, u.created_at, u.last_login)

theorem find_one_upsert_self (db : List UserDoc) (gid : String) (doc : UserDoc)
    (hdoc : doc.google_id = gid) :
    find_one (update_one_upsert db gid doc) gid = some doc := by
  induction db with
  | nil => simp [update_one_upsert, updateFirst, find_one, hdoc]
  | cons u rest ih =>
    by_cases h : u.google_id = gid
    · simp [update_one_upsert, updateFirst, h, find_one, hdoc]
    · unfold update_one_upsert updateFirst
      simp only [h, if_false]
      unfold update_one_upsert at ih
      by_cases h2 : (updateFirst rest gid fun _ => doc).2
      · simpa [h2, find_one, h] using ih
      · simpa [h2, find_one, h] using ih

theorem countGid_upsert (db : List UserDoc) (gid : String) (doc : UserDoc)
    (hdoc : doc.google_id = gid) (hc : countGid db gid ≤ 1) :
    countGid (update_one_upsert db gid doc) gid = 1 := by
  induction db with
  | nil => simp [update_one_upsert, updateFirst, countGid, List.countP_cons, hdoc]
  | cons u rest ih =>
    by_cases h : u.google_id = gid
    · have hrest : countGid rest gid = 0 := by
        have := hc
        simp [countGid, List.countP_cons, h] at this
        simpa [countGid] using this
      simp [update_one_upsert, updateFirst, h, countGid, List.countP_cons, hdoc,
        hrest, countGid] at *
      simpa [countGid] using hrest
    · have hc' : countGid rest gid ≤ 1 := by
        simpa [countGid, List.countP_cons, h] using hc
      have ih' := ih hc'
      unfold update_one_upsert updateFirst
      simp only [h, if_false]
      unfold update_one_upsert at ih'
      by_cases h2 : (updateFirst rest gid fun _ => doc).2
      · simp only [h2, if_true] at ih' ⊢
        simpa [countGid, List.countP_cons, h] using ih'
      · simp only [h2, if_false] at ih' ⊢
        simp only [countGid, List.countP_cons, List.cons_append] at ih' ⊢
        simpa [h] using ih'

theorem map_frameProj_update_one_set (db : List UserDoc) (gid : String)
    (f : UserDoc → UserDoc) (hf : ∀ u, frameProj (f u) = frameProj u) :
    (update_one_set db gid f).map frameProj = db.map frameProj := by
  induction db with
  | nil => simp [update_one_set, updateFirst]
  | cons u rest ih =>
    by_cases h : u.google_id = gid
    · simp [update_one_set, updateFirst, h, hf]
    · unfold update_one_set updateFirst
      simp only [h, if_false]
      unfold update_one_set at ih
      simpa using ih

theorem frameProj_applyProfileSet (upd : UserProfileUpdate) (u : UserDoc) :
    frameProj (applyProfileSet upd u) = frameProj u := rfl

/-- C3: on every successful login callback — in particular for a user who
already has a stored profile with arbitrary `about_me`/`age` — the document
the `users` collection holds for the provider subject id afterwards has
`about_me` overwritten to the empty string and `age` overwritten to null. -/
theorem claim3_login_resets_profile_fields (db : List UserDoc) (secret : String)
    (now : Nat) (newId : String) (ui : UserInfo) :
    ∃ u, find_one (google_auth db secret now newId
          (.success (some ui))).1 ui.sub = some u ∧
      u.about_me = "" ∧ u.age = none := by
  refine ⟨mkLoginDoc ui newId now, ?_, rfl, rfl⟩
  simpa [google_auth] using
    find_one_upsert_self db ui.sub (mkLoginDoc ui newId now) rfl

/-- C4: the issued session token is the claim set extended with an expiry
exactly 24 hours (86400 s) after issuance, signed with the process-wide
secret under the symmetric HMAC model of HS256; `create_access_token` is a
Lean function, hence a pure function of claims, current time and secret. -/
theorem claim4_token_issuance (sub email name secret : String) (now : Nat) :
    ∃ c : Claims,
      create_access_token sub email name secret now
          = .signed c (hmacSign c secret) ∧
      c.exp = some (now + 86400) ∧
      c.sub = sub ∧ c.email = email ∧ c.name = name :=
  ⟨_, rfl, rfl, rfl, rfl, rfl⟩

/-- C9: a token that is correctly HMAC-signed with the process secret but
carries no `exp` claim at all verifies successfully at every current time —
it never expires. -/
theorem claim9_no_exp_never_expires (c : Claims) (secret : String) (now : Nat)
    (h : c.exp = none) :
    verify_token (.signed c (hmacSign c secret)) secret now = .ok c := by
  simp [verify_token, h]

/-- Witness for C9: a concrete expiry-free signed token still verifies at an
arbitrarily late time. -/
theorem claim9_witness :
    verify_token
        (.signed ⟨"g", "e", "n", none⟩ (hmacSign ⟨"g", "e", "n", none⟩ "sec"))
        "sec" 99999999999
      = .ok ⟨"g", "e", "n", none⟩ :=
  claim9_no_exp_never_expires ⟨"g", "e", "n", none⟩ "sec" 99999999999 rfl

/-- C10: on every successful login callback the stored document for the
subject id afterwards carries the freshly generated id `newId` and
`created_at` overwritten to the current time — so neither the internal id nor
the creation timestamp survives a re-login. -/
theorem claim10_login_overwrites_identity (db : List UserDoc) (secret : String)
    (now : Nat) (newId : String) (ui : UserInfo) :
    ∃ u, find_one (google_auth db secret now newId
          (.success (some ui))).1 ui.sub = some u ∧
      u.id = newId ∧ u.created_at = now := by
  refine ⟨mkLoginDoc ui newId now, ?_, rfl, rfl⟩
  simpa [google_auth] using
    find_one_upsert_self db ui.sub (mkLoginDoc ui newId now) rfl

/-- C2: starting from a `users` collection holding at most one document for
subject id `g` (the invariant every collection built by this code
satisfies), two successive successful login callbacks with subject id `g`
leave exactly one matching document, whose `last_login` is the later login
time and whose `google_id` is still `g`. -/
theorem claim2_two_logins_one_doc (db : List UserDoc) (secret : String)
    (g : String) (n1 n2 : Nat) (id1 id2 : String) (ui1 ui2 : UserInfo)
    (h1 : ui1.sub = g) (h2 : ui2.sub = g) (hc : countGid db g ≤ 1) :
    countGid ((google_auth
        ((google_auth db secret n1 id1 (.success (some ui1))).1)
        secret n2 id2 (.success (some ui2))).1) g = 1 ∧
    ∃ u, find_one ((google_auth
          ((google_auth db secret n1 id1 (.success (some ui1))).1)
          secret n2 id2 (.success (some ui2))).1) g = some u ∧
      u.last_login = n2 ∧ u.google_id = g := by
  have hd1 : (mkLoginDoc ui1 id1 n1).google_id = g := h1
  have hd2 : (mkLoginDoc ui2 id2 n2).google_id = g := h2
  have hc1 : countGid (update_one_upsert db g (mkLoginDoc ui1 id1 n1)) g = 1 :=
    countGid_upsert db g _ hd1 hc
  constructor
  · simpa [google_auth, h1, h2] using
      countGid_upsert (update_one_upsert db g (mkLoginDoc ui1 id1 n1)) g
        (mkLoginDoc ui2 id2 n2) hd2 (le_of_eq hc1)
  · refine ⟨mkLoginDoc ui2 id2 n2, ?_, rfl, h2⟩
    simpa [google_auth, h1, h2] using
      find_one_upsert_self (update_one_upsert db g (mkLoginDoc ui1 id1 n1)) g
        (mkLoginDoc ui2 id2 n2) hd2

/-- Witness for C2: two concrete logins with the same subject id against an
initially empty collection yield exactly one matching document with the
later `last_login`. -/
theorem claim2_witness :
    countGid ((google_auth
        ((google_auth [] "sec" 10 "id1" (.success (some ⟨"g", "e", "n", none⟩))).1)
        "sec" 20 "id2" (.success (some ⟨"g", "e", "n", none⟩))).1) "g" = 1 ∧
    ∃ u, find_one ((google_auth
          ((google_auth [] "sec" 10 "id1"
            (.success (some ⟨"g", "e", "n", none⟩))).1)
          "sec" 20 "id2" (.success (some ⟨"g", "e", "n", none⟩))).1) "g"
        = some u ∧
      u.last_login = 20 ∧ u.google_id = "g" :=
  claim2_two_logins_one_doc [] "sec" "g" 10 20 "id1" "id2"
    ⟨"g", "e", "n", none⟩ ⟨"g", "e", "n", none⟩ rfl rfl (by decide)

/-- C5: an authenticated `PUT /auth/profile` can change only `name`,
`about_me` and `age`: for every request — whatever the body and whoever the
caller — every document of the resulting collection agrees with its original
on `id`, `google_id`, `email`, `picture`, `created_at` (and `last_login`). -/
theorem claim5_profile_update_frame (db : List UserDoc) (secret : String)
    (now : Nat) (authHeader : Option AuthHeaderVal) (raw : RawBody) :
    ((put_profile_endpoint db secret now authHeader raw).1).map frameProj
      = db.map frameProj := by
  unfold put_profile_endpoint
  cases hcu : get_current_user db secret now authHeader with
  | error e => rfl
  | ok cu =>
    simp only
    cases hv : validateBody raw with
    | error e => rfl
    | ok upd =>
      simp only [update_user_profile, hcu]
      by_cases he : isEmptyUpdate upd
      · simp [he]
      · have hmap := map_frameProj_update_one_set db cu.google_id
          (applyProfileSet upd) (frameProj_applyProfileSet upd)
        simp only [he, if_false]
        cases hf : find_one (update_one_set db cu.google_id
            (applyProfileSet upd)) cu.google_id with
        | none => simpa [hf] using hmap
        | some u => simpa [hf] using hmap

/-- C6: the OAuth callback handler is total and always answers with a
redirect: every `authorize_access_token` failure redirects to the front-end
error URL carrying the failure message, a missing `userinfo` redirects with
the handler's own error message, and in every case the response is one of
the two front-end redirects — never a raw exception or non-redirect
response. -/
theorem claim6_callback_always_redirects (db : List UserDoc) (secret : String)
    (now : Nat) (newId : String) (outcome : OAuthOutcome) :
    (∀ m, outcome = .failure m →
       (google_auth db secret now newId outcome).2 = .redirectError m) ∧
    (outcome = .success none →
       (google_auth db secret now newId outcome).2
         = .redirectError userinfoErrMsg) ∧
    ((∃ m, (google_auth db secret now newId outcome).2 = .redirectError m) ∨
     (∃ t, (google_auth db secret now newId outcome).2
         = .redirectCallback t)) := by
  refine ⟨?_, ?_, ?_⟩
  · rintro m rfl; rfl
  · rintro rfl; rfl
  · cases outcome with
    | failure m => exact Or.inl ⟨m, rfl⟩
    | success ui =>
      cases ui with
      | none => exact Or.inl ⟨userinfoErrMsg, rfl⟩
      | some u => exact Or.inr ⟨_, rfl⟩

/-- Witness for C6: a concrete provider failure is turned into the error
redirect, and a concrete missing-userinfo outcome likewise. -/
theorem claim6_witness :
    (google_auth [] "sec" 0 "id" (.failure "state mismatch")).2
        = .redirectError "state mismatch" ∧
    (google_auth [] "sec" 0 "id" (.success none)).2
        = .redirectError userinfoErrMsg :=
  ⟨(claim6_callback_always_redirects [] "sec" 0 "id"
      (.failure "state mismatch")).1 "state mismatch" rfl,
   (claim6_callback_always_redirects [] "sec" 0 "id"
      (.success none)).2.1 rfl⟩

/-- A concrete status-check record whose timestamp records its insertion
rank. -/
def mkSC (i : Nat) : StatusCheck :=
  { id := "", client_name := "client", timestamp := i }

/-- Counterexample to C7: in a collection of 1001 records inserted in
timestamp order, the most recently inserted record (`mkSC 1000`) is NOT in
the response of `GET /status` — the unsorted `find().to_list(1000)` keeps
the 1000 earliest-inserted records, not the 1000 most recent. -/
theorem claim7_counterexample :
    mkSC 1000 ∉ get_status_checks ((List.range 1001).map mkSC) := by
  intro hmem
  have heq : get_status_checks ((List.range 1001).map mkSC)
      = (List.range 1000).map mkSC := by
    show ((List.range 1001).map mkSC).take 1000 = (List.range 1000).map mkSC
    rw [← List.map_take, List.take_range]
    norm_num
  rw [heq] at hmem
  rcases List.mem_map.mp hmem with ⟨i, hi, hsc⟩
  have : i = 1000 := congrArg StatusCheck.timestamp hsc
  rw [this] at hi
  exact absurd (List.mem_range.mp hi) (lt_irrefl 1000)

/-- C7 (amended): `GET /status` returns a prefix of the collection in
insertion order, of length `min 1000 (collection size)` — when more than
1000 records exist, the 1000 EARLIEST-inserted ones are returned and the
most recent are omitted. -/
theorem claim7_status_prefix (col : List StatusCheck) :
    get_status_checks col <+: col ∧
    (get_status_checks col).length = min 1000 col.length :=
  ⟨List.take_prefix 1000 col, List.length_take 1000 col⟩

/-- C8: an authenticated `PUT /auth/profile` whose body carries a
non-integer `age` (a string `int(...)` cannot parse, such as `"thirty"`) is
rejected with HTTP 422 and the `users` collection is left untouched. -/
theorem claim8_age_validation (db : List UserDoc) (secret : String) (now : Nat)
    (authHeader : Option AuthHeaderVal) (raw : RawBody) (s : String)
    (u : UserDoc)
    (hauth : get_current_user db secret now authHeader = .ok u)
    (hage : raw.age = some (.jstr s)) (hs : pyIntOfString s = none) :
    (put_profile_endpoint db secret now authHeader raw).2
        = .error ⟨422, "validation error"⟩ ∧
    (put_profile_endpoint db secret now authHeader raw).1 = db := by
  have hv : validateBody raw = .error ⟨422, "validation error"⟩ := by
    simp [validateBody, hage, coerceOptInt, hs]
  constructor <;> simp [put_profile_endpoint, hauth, hv]

/-- Witness for C8: a concrete authenticated request with body
`{"age": "thirty"}` gets 422 and leaves the collection as it was. -/
theorem claim8_witness :
    (put_profile_endpoint
        [⟨"id0", "g", "e", "n", "", "bio", some 5, 0, 0⟩] "sec" 0
        (some (.bearer (.signed ⟨"g", "e", "n", none⟩
          (hmacSign ⟨"g", "e", "n", none⟩ "sec"))))
        { age := some (.jstr "thirty") }).2
      = .error ⟨422, "validation error"⟩ ∧
    (put_profile_endpoint
        [⟨"id0", "g", "e", "n", "", "bio", some 5, 0, 0⟩] "sec" 0
        (some (.bearer (.signed ⟨"g", "e", "n", none⟩
          (hmacSign ⟨"g", "e", "n", none⟩ "sec"))))
        { age := some (.jstr "thirty") }).1
      = [⟨"id0", "g", "e", "n", "", "bio", some 5, 0, 0⟩] :=
  claim8_age_validation _ "sec" 0 _ _ "thirty"
    ⟨"id0", "g", "e", "n", "", "bio", some 5, 0, 0⟩
    (by simp [get_current_user, verify_token, find_one]) rfl (by decide)

/-- The HTTP status code of a handler outcome, when it is an error. -/
def statusOf (r : Except HTTPError UserDoc) : Option Nat :=
  match r with
  | .error e => some e.statusCode
  | .ok _ => none

/-- C1: for both `GET /auth/me` and `PUT /auth/profile` — a missing
`Authorization` header, a header not starting with `Bearer `, a structurally
invalid token, a token with a wrong signature, or a correctly signed token
whose expiry is past, all yield HTTP 401; a token that verifies but whose
subject matches no user document yields HTTP 404. -/
theorem claim1_auth_error_codes (db : List UserDoc) (secret : String)
    (now : Nat) (authHeader : Option AuthHeaderVal) (raw : RawBody) :
    ((authHeader = none ∨ (∃ s, authHeader = some (.nonBearer s)) ∨
      (∃ t, authHeader = some (.bearer t) ∧
        ((∃ s, t = .malformed s) ∨
         (∃ c sg, t = .signed c sg ∧ sg ≠ hmacSign c secret) ∨
         (∃ c e, t = .signed c (hmacSign c secret) ∧
            c.exp = some e ∧ e ≤ now)))) →
      statusOf (get_current_user_profile db secret now authHeader)
          = some 401 ∧
      statusOf (put_profile_endpoint db secret now authHeader raw).2
          = some 401) ∧
    (∀ t c, authHeader = some (.bearer t) →
      verify_token t secret now = .ok c → find_one db c.sub = none →
      statusOf (get_current_user_profile db secret now authHeader)
          = some 404 ∧
      statusOf (put_profile_endpoint db secret now authHeader raw).2
          = some 404) := by
  constructor
  · intro hbad
    have h401 : ∃ d, get_current_user db secret now authHeader
        = .error ⟨401, d⟩ := by
      rcases hbad with rfl | ⟨s, rfl⟩ | ⟨t, rfl, hbadtok⟩
      · exact ⟨_, rfl⟩
      · exact ⟨_, rfl⟩
      · rcases hbadtok with ⟨s, rfl⟩ | ⟨c, sg, rfl, hsg⟩ | ⟨c, e, rfl, hexp, hle⟩
        · exact ⟨"Invalid token", rfl⟩
        · exact ⟨"Invalid token", by
            simp [get_current_user, verify_token, hsg]⟩
        · exact ⟨"Token expired", by
            simp [get_current_user, verify_token, hexp, hle]⟩
    rcases h401 with ⟨d, hd⟩
    exact ⟨by simp [get_current_user_profile, hd, statusOf],
           by simp [put_profile_endpoint, hd, statusOf]⟩
  · intro t c hhdr hver hfind
    subst hhdr
    have hd : get_current_user db secret now (some (.bearer t))
        = .error ⟨404, "User not found"⟩ := by
      simp [get_current_user, hver, hfind]
    exact ⟨by simp [get_current_user_profile, hd, statusOf],
           by simp [put_profile_endpoint, hd, statusOf]⟩

/-- Witness for C1: a concrete header-less request gets 401, and a concrete
correctly signed request whose subject matches no stored user gets 404. -/
theorem claim1_witness :
    statusOf (get_current_user_profile [] "sec" 0 none) = some 401 ∧
    statusOf (get_current_user_profile [] "sec" 0
        (some (.bearer (.signed ⟨"g", "e", "n", none⟩
          (hmacSign ⟨"g", "e", "n", none⟩ "sec"))))) = some 404 :=
  ⟨((claim1_auth_error_codes [] "sec" 0 none {}).1 (Or.inl rfl)).1,
   ((claim1_auth_error_codes [] "sec" 0
        (some (.bearer (.signed ⟨"g", "e", "n", none⟩
          (hmacSign ⟨"g", "e", "n", none⟩ "sec")))) {}).2
      (.signed ⟨"g", "e", "n", none⟩ (hmacSign ⟨"g", "e", "n", none⟩ "sec"))
      ⟨"g", "e", "n", none⟩ rfl (by simp [verify_token]) rfl).1⟩

end Backend
